import Mathlib

/-!
Formal model of the calendar rendering engine of `src/js/calendar.js`
(team-vacation-calendar).

Modelling conventions:

* A calendar day is denoted by its day number (days since 1970-01-01).
  A JS `Date` built from a `YYYY-MM-DD` calendar date at midnight has
  timestamp `dayNumber * msPerDay`; the model assumes no UTC offset /
  DST jumps, so all millisecond arithmetic of the source is mirrored
  exactly on these timestamps.  `daysFromCivil` is the standard civil
  calendar day-number algorithm and models the `Date` constructor.
* JS `Map` objects (insertion ordered, `set` replaces in place,
  per-day push appends) are modelled as association lists with the
  usual replace-or-append / append-or-create operations.  The source
  keys day maps by the `YYYY-MM-DD` string of `formatDateKey`, which is
  injective on calendar days, so the model keys them by day number.
* Drawing calls are modelled by the data they would put on the canvas:
  a vacation bar becomes a `BarSpec`, a day cell a `CellSpec`, a legend
  row a `LegendRow`.  Counting loop iterations of the dot-drawing loops
  gives the number of dots actually drawn.
-/

/- ===== Layout constants (calendar.js lines 7-46) ===== -/

def LEFT_MARGIN : Int := 150
def TOP_MARGIN : Int := 60
def ROW_HEIGHT : Int := 40
def DAY_WIDTH : Int := 30
def HEADER_HEIGHT : Int := 50
def BOTTOM_PADDING : Int := 20

def LEGEND_ROW_HEIGHT : Int := 25
def LEGEND_PADDING : Int := 30

def WEEKEND_COLOR : String := "#F0F0F0"
def GRID_COLOR : String := "#C8C8C8"
def DEFAULT_EMPLOYEE_COLOR : String := "#3498db"
def HOLIDAY_COLOR : String := "rgba(231, 76, 60, 0.25)"
def HOLIDAY_BORDER_COLOR : String := "#e74c3c"

def MONTH_NAMES : List String :=
  ["Jan", "Feb", "Mar", "Apr", "May", "Jun",
   "Jul", "Aug", "Sep", "Oct", "Nov", "Dec"]

def MONTH_THRESHOLD_DAYS : Int := 61
def MONTH_GRID_PADDING : Int := 20
def MONTH_TITLE_HEIGHT : Int := 30
def WEEKDAY_HEADER_HEIGHT : Int := 25
def DAY_CELL_SIZE : Int := 28
def MAX_DOTS_PER_ROW : Nat := 3
def MAX_DOT_ROWS : Nat := 2
def MONTH_HORIZONTAL_GAP : Int := 30
def MONTH_VERTICAL_GAP : Int := 40

/- ===== Calendar-day arithmetic ===== -/

def msPerDay : Int := 24 * 60 * 60 * 1000

/-- Day number of a civil calendar date (1-based month), the value
`new Date(y, m-1, d)` at local midnight divided by `msPerDay`.
Standard `days_from_civil` algorithm. -/
def daysFromCivil (y m d : Int) : Int :=
  let y2 := if m ≤ 2 then y - 1 else y
  let era := y2.fdiv 400
  let yoe := y2 - era * 400
  let mp := (m + 9).emod 12
  let doy := (153 * mp + 2).fdiv 5 + d - 1
  let doe := yoe * 365 + yoe.fdiv 4 - yoe.fdiv 100 + doy
  era * 146097 + doe - 719468

/-- A `YYYY-MM-DD` calendar date string (month 1-based). -/
structure YMD where
  y : Int
  m : Int
  d : Int
deriving DecidableEq

/-- Day number of a date string: `new Date(s + "T00:00:00") / msPerDay`. -/
def toDays (x : YMD) : Int := daysFromCivil x.y x.m x.d

/-- Midnight timestamp of a date string: `new Date(s + "T00:00:00")`. -/
def tsOf (x : YMD) : Int := toDays x * msPerDay

/-- `calculateDays` (calendar.js lines 84-87): inclusive day count,
`Math.floor((to - from) / msPerDay) + 1` on timestamps. -/
def calculateDays (fromTs toTs : Int) : Int :=
  (toTs - fromTs).fdiv msPerDay + 1

/-- `shouldUseMonthlyGridView` (calendar.js lines 116-119). -/
def shouldUseMonthlyGridView (fromTs toTs : Int) : Bool :=
  calculateDays fromTs toTs > MONTH_THRESHOLD_DAYS

/-- `getFirstDayOfWeek` (calendar.js lines 124-127): weekday of the 1st
of a month (`month` 0-based as in JS), converted to Monday=0.
`getDay` of day number `n` is `(n + 4) mod 7` (1970-01-01 was a Thursday). -/
def getFirstDayOfWeek (year month : Int) : Int :=
  let day := (daysFromCivil year (month + 1) 1 + 4).emod 7
  if day = 0 then 6 else day - 1

/- ===== JS Map model: insertion-ordered association lists ===== -/

/-- `map.set(k, v)` of a JS `Map`: replace in place if the key exists,
else append (keys are unique by construction). -/
def mapSet {β : Type} (m : List (Int × β)) (k : Int) (v : β) : List (Int × β) :=
  match m with
  | [] => [(k, v)]
  | (k1, v1) :: t => if k1 = k then (k, v) :: t else (k1, v1) :: mapSet t k v

/-- The per-day push pattern `if (!m.has(k)) m.set(k, []); m.get(k).push(x)`:
append to the existing list for the key, else create a one-element list. -/
def mapAppend {β : Type} (m : List (Int × List β)) (k : Int) (x : β) :
    List (Int × List β) :=
  match m with
  | [] => [(k, [x])]
  | (k1, v1) :: t =>
    if k1 = k then (k1, v1 ++ [x]) :: t else (k1, v1) :: mapAppend t k x

/-- `map.get(k) || []`. -/
def lookupL {β : Type} (k : Int) (m : List (Int × List β)) : List β :=
  (List.lookup k m).getD []

/-- `map.has(k)`. -/
def hasKey {β : Type} (k : Int) (m : List (Int × β)) : Bool :=
  (List.lookup k m).isSome

/- ===== Data model ===== -/

structure Employee where
  id : Int
  name : String
  color : Option String
deriving DecidableEq

structure Vacation where
  employee_id : Int
  start_date : YMD
  end_date : YMD
  description : Option String
  employee : Option Employee
deriving DecidableEq

/-- A holiday object from the API; `date` is its day number. -/
structure Holiday where
  date : Int
  name : String
deriving DecidableEq

/-- The stripping step of `parseHexColor` (line 243-245): drop a
leading `#`. -/
def stripHash (s : String) : String :=
  if s.front = '#' then s.drop 1 else s

/-- `parseHexColor` (calendar.js lines 239-250).  `none` models a missing
(`undefined`) color.  Note the source checks only the length of the
stripped string, never that its characters are hexadecimal digits. -/
def parseHexColor (hex : Option String) : String :=
  match hex with
  | none => DEFAULT_EMPLOYEE_COLOR
  | some s =>
    if s.length = 0 then DEFAULT_EMPLOYEE_COLOR
    else if (stripHash s).length ≠ 6 then DEFAULT_EMPLOYEE_COLOR
    else "#" ++ stripHash s

/-- `v.employee?.name || 'Unknown'` (the JS `||` also replaces an empty
name). -/
def employeeNameOf (v : Vacation) : String :=
  match v.employee with
  | none => "Unknown"
  | some emp => if emp.name = "" then "Unknown" else emp.name

/-- An entry pushed into the vacation day map (calendar.js lines 184-188). -/
structure DotEntry where
  empId : Int
  color : String
  name : String
deriving DecidableEq

def entryOf (v : Vacation) : DotEntry :=
  { empId := v.employee_id
  , color := parseHexColor (v.employee.bind (fun emp => emp.color))
  , name := employeeNameOf v }

/- ===== Holiday map (calendar.js lines 104-111) ===== -/

/-- `buildHolidayMap`: `holidays.forEach(h => map.set(h.date, h))`. -/
def buildHolidayMap (holidays : List Holiday) : List (Int × Holiday) :=
  holidays.foldl (fun m h => mapSet m h.date h) []

/-- The last list entry carrying a given date (executable form). -/
def lastWithDate (holidays : List Holiday) (d : Int) : Option Holiday :=
  holidays.foldl (fun acc h => if h.date = d then some h else acc) none

/-- Day offsets shaded by `drawHolidayBackground` (calendar.js lines
316-342): offsets `i < days` whose day is present in the holiday map
(the early return on an empty map included). -/
def holidayShadedDays (fromD : Int) (days : Int) (m : List (Int × Holiday)) :
    List Nat :=
  if m.length = 0 then []
  else (List.range days.toNat).filter (fun i => hasKey (fromD + (i : Int)) m)

/- ===== Vacation day map (calendar.js lines 171-194) ===== -/

/-- The days visited by `while (current <= end) { ...; current.setDate(current.getDate() + 1) }`. -/
def vacationDays (s e : Int) : List Int :=
  if s ≤ e then s :: vacationDays (s + 1) e else []
termination_by (e + 1 - s).toNat
decreasing_by simp_wf; omega

/-- `buildVacationDayMap` restricted to one vacation: push its entry for
every day of its (inclusive) span. -/
def addVacation (m : List (Int × List DotEntry)) (v : Vacation) :
    List (Int × List DotEntry) :=
  (vacationDays (toDays v.start_date) (toDays v.end_date)).foldl
    (fun m2 d => mapAppend m2 d (entryOf v)) m

/-- `buildVacationDayMap` (calendar.js lines 171-194). -/
def buildVacationDayMap (vacations : List Vacation) :
    List (Int × List DotEntry) :=
  vacations.foldl addVacation []

/- ===== Dimension planner ===== -/

/-- The legend-height ternary used (twice, once for vacations and once
for holidays) in `generateTimelineCalendar` (lines 887-895) and
`calculateMonthlyGridDimensions` (lines 210-216):
`count > 0 ? LEGEND_PADDING + 45 + count*LEGEND_ROW_HEIGHT : 0`. -/
def legendBlockHeight (count : Nat) : Int :=
  if 0 < count then LEGEND_PADDING + 45 + (count : Int) * LEGEND_ROW_HEIGHT else 0

/-- Timeline canvas width (lines 898, 902): `LEFT_MARGIN + days*DAY_WIDTH + 20`,
floored at 800. -/
def timelineWidth (days : Int) : Int :=
  let w := LEFT_MARGIN + days * DAY_WIDTH + 20
  if w < 800 then 800 else w

/-- Timeline canvas height (lines 899, 903), floored at 200. -/
def timelineHeight (employeeCount vacationCount holidayCount : Nat) : Int :=
  let h := TOP_MARGIN + HEADER_HEIGHT + (employeeCount : Int) * ROW_HEIGHT +
    BOTTOM_PADDING + legendBlockHeight vacationCount + legendBlockHeight holidayCount
  if h < 200 then 200 else h

/-- Number of months enumerated by `getMonthsInRange` (lines 132-156):
one per calendar month from `from`'s month through `to`'s month. -/
def monthsCount (f t : YMD) : Nat :=
  ((t.y * 12 + (t.m - 1)) - (f.y * 12 + (f.m - 1)) + 1).toNat

/-- Monthly-grid canvas height from `calculateMonthlyGridDimensions`
(lines 199-232), floored at 400 (`Math.max(height, 400)`). -/
def monthlyGridHeight (months vacationCount holidayCount : Nat) : Int :=
  let numRows : Int := (((months + 3 - 1) / 3 : Nat) : Int)
  let monthHeight : Int := MONTH_TITLE_HEIGHT + WEEKDAY_HEADER_HEIGHT + 6 * DAY_CELL_SIZE
  let gridHeight : Int := numRows * monthHeight + (numRows - 1) * MONTH_VERTICAL_GAP
  max (TOP_MARGIN + gridHeight + BOTTOM_PADDING + legendBlockHeight vacationCount +
    legendBlockHeight holidayCount + MONTH_GRID_PADDING) 400

/-- Monthly-grid canvas width from `calculateMonthlyGridDimensions`,
floored at 600. -/
def monthlyGridWidth (months : Nat) : Int :=
  let numCols : Int := min (months : Int) 3
  let gridWidth : Int := numCols * (7 * DAY_CELL_SIZE) + (numCols - 1) * MONTH_HORIZONTAL_GAP
  max (MONTH_GRID_PADDING * 2 + gridWidth) 600

inductive ViewKind where
  | timeline
  | monthlyGrid
deriving DecidableEq

structure RenderResult where
  view : ViewKind
  width : Int
  height : Int
deriving DecidableEq

/-- `generateCalendar` (calendar.js lines 964-979): route on
`shouldUseMonthlyGridView` and compute the canvas dimensions of the
selected view.  The function is total: the source has no validation of
the requested window and no failure path. -/
def generateCalendarResult (f t : YMD) (employees : List Employee)
    (vacations : List Vacation) (holidays : List Holiday) : RenderResult :=
  let fromTs := tsOf f
  let toTs := tsOf t
  if shouldUseMonthlyGridView fromTs toTs then
    let mc := monthsCount f t
    { view := ViewKind.monthlyGrid
    , width := monthlyGridWidth mc
    , height := monthlyGridHeight mc vacations.length holidays.length }
  else
    { view := ViewKind.timeline
    , width := timelineWidth (calculateDays fromTs toTs)
    , height := timelineHeight employees.length vacations.length holidays.length }

/-- The day columns drawn by the `for (let i = 0; i < days; i++)` loops
of the timeline view (e.g. `drawDateHeaders`, lines 347-367): one per
loop iteration; a non-positive `days` draws none. -/
def dateHeaderCells (fromTs days : Int) : List Int :=
  (List.range days.toNat).map (fun i => fromTs + (i : Int) * msPerDay)

/- ===== Timeline vacation bars ===== -/

/-- One emitted `roundRect`/`fill` pair of `drawVacationBar`. -/
structure BarSpec where
  x : Int
  w : Int
  barY : Int
  color : String
deriving DecidableEq

/-- `drawVacationBar` (calendar.js lines 395-417) on date timestamps:
clip to the visible range, compute day offsets, and emit the bar.
The fill is unconditional in the source. -/
def drawVacationBar (startTs endTs fromTs toTs y : Int) (color : String) : BarSpec :=
  let s := if startTs < fromTs then fromTs else startTs
  let e := if endTs > toTs then toTs else endTs
  let startDay := (s - fromTs).fdiv msPerDay
  let endDay := (e - fromTs).fdiv msPerDay + 1
  { x := LEFT_MARGIN + startDay * DAY_WIDTH
  , w := (endDay - startDay) * DAY_WIDTH
  , barY := y + 5
  , color := color }

/-- The per-employee vacation map of `generateTimelineCalendar`
(lines 919-929): employee id to the list of (start, end) date pairs. -/
def timelineVacationMap (vacations : List Vacation) :
    List (Int × List (YMD × YMD)) :=
  vacations.foldl (fun m v => mapAppend m v.employee_id (v.start_date, v.end_date)) []

/-- The bars emitted by `drawEmployeeRows` (calendar.js lines 372-390):
for the employee at row index `i`, one `drawVacationBar` call per entry
of its vacation list. -/
def drawEmployeeRowsBars (employees : List Employee) (vacations : List Vacation)
    (fromD toD : Int) : List BarSpec :=
  employees.enum.flatMap (fun p =>
    let y := TOP_MARGIN + HEADER_HEIGHT + (p.1 : Int) * ROW_HEIGHT
    (lookupL p.2.id (timelineVacationMap vacations)).map (fun se =>
      drawVacationBar (toDays se.1 * msPerDay) (toDays se.2 * msPerDay)
        (fromD * msPerDay) (toD * msPerDay) y (parseHexColor p.2.color)))

/- ===== Legend (calendar.js lines 454-516) ===== -/

/-- `formatLegendDate` (lines 454-457): short month name plus day of
month, no year (`toLocaleDateString('en-US', {month:'short', day:'numeric'})`). -/
def formatLegendDate (x : YMD) : String :=
  (MONTH_NAMES.getD (x.m - 1).toNat "") ++ " " ++ toString x.d

structure LegendRow where
  badgeColor : String
  name : String
  dateRange : String
  descText : Option String
deriving DecidableEq

/-- One row of `drawLegend` (lines 485-515). -/
def legendRowOf (v : Vacation) : LegendRow :=
  { badgeColor := parseHexColor (v.employee.bind (fun emp => emp.color))
  , name := employeeNameOf v
  , dateRange := formatLegendDate v.start_date ++ " - " ++ formatLegendDate v.end_date
  , descText := v.description.map (fun d => "- " ++ d) }

/-- `drawLegend` (calendar.js lines 462-516): one row per vacation, in
list order. -/
def drawLegendRows (vacations : List Vacation) : List LegendRow :=
  vacations.map legendRowOf

/- ===== Monthly-grid day cells and dots ===== -/

/-- Inner dot loop of `drawVacationDots` (lines 553-563):
`for (col = 0; col < dotsInThisRow && dotIndex < maxDotsToShow; col++)`
with `dotIndex++` per drawn dot.  The remaining `col` iterations are the
structural fuel; returns the number of dots drawn. -/
def innerDotLoop : Nat → Nat → Nat → Nat
  | 0, _, _ => 0
  | colsLeft + 1, dotIndex, maxShow =>
    if dotIndex < maxShow then 1 + innerDotLoop colsLeft (dotIndex + 1) maxShow
    else 0

/-- Outer dot loop of `drawVacationDots` (lines 548-564):
`for (row = 0; row < totalRows && dotIndex < vacations.length; row++)`,
each row drawing `min(vacations.length - dotIndex, MAX_DOTS_PER_ROW)`
columns.  Rows remaining are the structural fuel. -/
def outerDotLoop : Nat → Nat → Nat → Nat → Nat
  | 0, _, _, _ => 0
  | rowsLeft + 1, n, maxShow, dotIndex =>
    if dotIndex < n then
      let k := innerDotLoop (min (n - dotIndex) MAX_DOTS_PER_ROW) dotIndex maxShow
      k + outerDotLoop rowsLeft n maxShow (dotIndex + k)
    else 0

/-- `totalRows` of `drawVacationDots` (line 544):
`min(Math.ceil(n / MAX_DOTS_PER_ROW), MAX_DOT_ROWS)`. -/
def totalDotRows (n : Nat) : Nat :=
  min ((n + MAX_DOTS_PER_ROW - 1) / MAX_DOTS_PER_ROW) MAX_DOT_ROWS

/-- `maxDotsToShow` (line 545). -/
def maxDotsToShow (n : Nat) : Nat := totalDotRows n * MAX_DOTS_PER_ROW

/-- Number of dots drawn by `drawVacationDots` for `n` vacations. -/
def dotsDrawn (n : Nat) : Nat :=
  outerDotLoop (totalDotRows n) n (maxDotsToShow n) 0

/-- The `+` overflow glyph condition of `drawVacationDots` (line 567):
`vacations.length > maxDotsToShow`. -/
def plusShown (n : Nat) : Bool := maxDotsToShow n < n

/-- What `drawDayCell` puts on the canvas for one day cell.
`borderColor` stands for the stroke style of the cell border (the
accent line width 1.5 is chosen under exactly the same condition). -/
structure CellSpec where
  background : String
  borderColor : String
  textColor : String
  dayNumText : String
  dotsCount : Nat
  plus : Bool
deriving DecidableEq

/-- `drawDayCell` (calendar.js lines 590-624). -/
def drawDayCell (dayNum : Nat) (isWeekendDay isHolidayDay isInRange : Bool)
    (vacations : List DotEntry) : CellSpec :=
  { background :=
      if !isInRange then "#F5F5F5"
      else if isHolidayDay then HOLIDAY_COLOR
      else if isWeekendDay then WEEKEND_COLOR
      else "white"
  , borderColor :=
      if isHolidayDay && isInRange then HOLIDAY_BORDER_COLOR else GRID_COLOR
  , textColor := if isInRange then "black" else "#BBB"
  , dayNumText := toString dayNum
  , dotsCount :=
      if isInRange && decide (0 < vacations.length) then dotsDrawn vacations.length
      else 0
  , plus :=
      if isInRange && decide (0 < vacations.length) then plusShown vacations.length
      else false }

/-- Day number (timestamp / msPerDay) of `new Date(month.year, month.month,
dayNum)` in the per-day loop of `drawMonthGrid` (`month` 0-based). -/
def cellDateOf (year month : Int) (dayNum : Nat) : Int :=
  daysFromCivil year (month + 1) (dayNum : Int)

/-- The per-day body of `drawMonthGrid` (calendar.js lines 661-680):
compute the weekday, range membership, holiday and vacation data of the
cell and hand them to `drawDayCell`. -/
def monthGridCellFor (year month : Int) (dayNum : Nat)
    (vacationDayMap : List (Int × List DotEntry))
    (holidayMap : List (Int × Holiday)) (rangeFrom rangeTo : Int) : CellSpec :=
  let firstDayOfWeek := getFirstDayOfWeek year month
  let dayOfWeek := (firstDayOfWeek + (dayNum : Int) - 1).emod 7
  let currentDate := cellDateOf year month dayNum
  let isInRange := decide (rangeFrom ≤ currentDate ∧ currentDate ≤ rangeTo)
  let isWeekendDay := decide (5 ≤ dayOfWeek)
  let isHolidayDay := hasKey currentDate holidayMap
  let vacationsOnDay := lookupL currentDate vacationDayMap
  drawDayCell dayNum isWeekendDay isHolidayDay isInRange vacationsOnDay

/- ===================================================================
   Lemmas
   =================================================================== -/

lemma msPerDay_pos : (0 : Int) < msPerDay := by norm_num [msPerDay]

/-- On day-granular dates (midnight timestamps) `calculateDays` is the
inclusive day count. -/
lemma calculateDays_ts (f t : Int) :
    calculateDays (f * msPerDay) (t * msPerDay) = t - f + 1 := by
  unfold calculateDays
  rw [← sub_mul, Int.mul_fdiv_cancel _ (by norm_num [msPerDay])]

/- ===== Claim C1: view selection threshold ===== -/

/-- C1.  For every render request, the Monthly-Grid view is selected iff
the inclusive day count exceeds `MONTH_THRESHOLD_DAYS = 61`, and the
Timeline view is selected iff the day count is at most 61 (so the
boundary `days = 61` yields Timeline). -/
theorem c1_view_selection (f t : YMD) (emps : List Employee)
    (vacs : List Vacation) (hols : List Holiday) :
    MONTH_THRESHOLD_DAYS = 61 ∧
    ((generateCalendarResult f t emps vacs hols).view = ViewKind.monthlyGrid ↔
      MONTH_THRESHOLD_DAYS < calculateDays (tsOf f) (tsOf t)) ∧
    ((generateCalendarResult f t emps vacs hols).view = ViewKind.timeline ↔
      calculateDays (tsOf f) (tsOf t) ≤ MONTH_THRESHOLD_DAYS) := by
  refine ⟨rfl, ?_, ?_⟩ <;>
    · unfold generateCalendarResult shouldUseMonthlyGridView
      by_cases h : MONTH_THRESHOLD_DAYS < calculateDays (tsOf f) (tsOf t)
      · simp [h]
      · simp [h, not_lt.mp h]

/- ===== Claim C4: no range validation exists ===== -/

/-- C4 counterexample.  A request with `toDate < fromDate`
(2025-06-10 .. 2025-06-05) has inclusive day count `-4 < 1`, yet no
error of any kind is raised: the engine still produces an image
(Timeline view, clamped to the 800 x 200 minimum canvas). -/
theorem c4_counterexample :
    calculateDays (tsOf ⟨2025, 6, 10⟩) (tsOf ⟨2025, 6, 5⟩) = -4 ∧
    generateCalendarResult ⟨2025, 6, 10⟩ ⟨2025, 6, 5⟩ [] [] [] =
      { view := ViewKind.timeline, width := 800, height := 200 } := by
  decide

/-- C4 amended.  The code performs no validation of the requested
window and has no failure path: a request whose inclusive day count is
below 1 (in particular `toDate < fromDate`) is routed to the Timeline
view (day count ≤ threshold), its day-column loops run zero times, and
an image with the minimum 800-pixel width is still produced. -/
theorem c4_amended (f t : YMD) (emps : List Employee) (vacs : List Vacation)
    (hols : List Holiday)
    (h : calculateDays (tsOf f) (tsOf t) < 1) :
    (generateCalendarResult f t emps vacs hols).view = ViewKind.timeline ∧
    dateHeaderCells (tsOf f) (calculateDays (tsOf f) (tsOf t)) = [] ∧
    (generateCalendarResult f t emps vacs hols).width = 800 := by
  have hn : ¬ MONTH_THRESHOLD_DAYS < calculateDays (tsOf f) (tsOf t) := by
    unfold MONTH_THRESHOLD_DAYS; omega
  have hcells : dateHeaderCells (tsOf f) (calculateDays (tsOf f) (tsOf t)) = [] := by
    unfold dateHeaderCells
    rw [Int.toNat_of_nonpos (by omega)]
    rfl
  have hb : shouldUseMonthlyGridView (tsOf f) (tsOf t) = false := by
    unfold shouldUseMonthlyGridView
    simpa using hn
  refine ⟨?_, hcells, ?_⟩
  · simp only [generateCalendarResult, hb, Bool.false_eq_true, if_false]
  · simp only [generateCalendarResult, hb, Bool.false_eq_true, if_false]
    unfold timelineWidth LEFT_MARGIN DAY_WIDTH
    rw [if_pos (by omega)]

/-- C4 witness. -/
theorem c4_witness :
    (generateCalendarResult ⟨2025, 6, 10⟩ ⟨2025, 6, 5⟩ [] [] []).view = ViewKind.timeline ∧
    dateHeaderCells (tsOf ⟨2025, 6, 10⟩)
      (calculateDays (tsOf ⟨2025, 6, 10⟩) (tsOf ⟨2025, 6, 5⟩)) = [] ∧
    (generateCalendarResult ⟨2025, 6, 10⟩ ⟨2025, 6, 5⟩ [] [] []).width = 800 :=
  c4_amended ⟨2025, 6, 10⟩ ⟨2025, 6, 5⟩ [] [] [] (by decide)

/- ===== Claim C5: canvas height monotonicity and minima ===== -/

/-- C5.  With all other inputs fixed, the computed canvas height grows
strictly with the vacation count and with the holiday count (the first
legend entry adds the legend padding and header, each further entry one
legend row), and is never below the minimum: 200 in Timeline mode, 400
in Monthly-Grid mode (for any non-empty month range). -/
theorem c5_height_monotone (e vc vc2 hc hc2 months : Nat) :
    (vc < vc2 → timelineHeight e vc hc < timelineHeight e vc2 hc) ∧
    (hc < hc2 → timelineHeight e vc hc < timelineHeight e vc hc2) ∧
    200 ≤ timelineHeight e vc hc ∧
    (1 ≤ months → vc < vc2 →
      monthlyGridHeight months vc hc < monthlyGridHeight months vc2 hc) ∧
    (1 ≤ months → hc < hc2 →
      monthlyGridHeight months vc hc < monthlyGridHeight months vc hc2) ∧
     400 ≤ monthlyGridHeight months vc hc := by
  unfold timelineHeight monthlyGridHeight legendBlockHeight
  unfold TOP_MARGIN HEADER_HEIGHT ROW_HEIGHT BOTTOM_PADDING LEGEND_PADDING
    LEGEND_ROW_HEIGHT MONTH_TITLE_HEIGHT WEEKDAY_HEADER_HEIGHT DAY_CELL_SIZE
    MONTH_VERTICAL_GAP MONTH_GRID_PADDING
  dsimp only
  refine ⟨?_, ?_, ?_, ?_, ?_, ?_⟩ <;> intros <;> split_ifs <;> omega

/-- C5 witness. -/
theorem c5_witness :
    timelineHeight 1 0 0 < timelineHeight 1 1 0 ∧
    timelineHeight 1 0 0 < timelineHeight 1 0 2 ∧
    200 ≤ timelineHeight 1 0 0 ∧
    monthlyGridHeight 3 0 0 < monthlyGridHeight 3 1 0 ∧
    monthlyGridHeight 3 0 0 < monthlyGridHeight 3 0 2 ∧
    400 ≤ monthlyGridHeight 3 0 0 := by
  obtain ⟨h1, h2, h3, h4, h5, h6⟩ := c5_height_monotone 1 0 1 0 2 3
  exact ⟨h1 (by decide), h2 (by decide), h3,
    h4 (by decide) (by decide), h5 (by decide) (by decide), h6⟩

/- ===== Claim C3: dot packing and overflow marker ===== -/

lemma innerDotLoop_eq (r d m : Nat) : innerDotLoop r d m = min r (m - d) := by
  induction r generalizing d with
  | zero => simp [innerDotLoop]
  | succ r ih =>
    simp only [innerDotLoop]
    by_cases h : d < m
    · rw [if_pos h, ih]; omega
    · rw [if_neg h]; omega

lemma outerDotLoop_eq (r n m d : Nat) :
    outerDotLoop r n m d = min (min (n - d) (m - d)) (3 * r) := by
  induction r generalizing d with
  | zero => simp only [outerDotLoop]; omega
  | succ r ih =>
    simp only [outerDotLoop, innerDotLoop_eq, MAX_DOTS_PER_ROW]
    by_cases h : d < n
    · rw [if_pos h, ih]; omega
    · rw [if_neg h]; omega

lemma dotsDrawn_eq (n : Nat) : dotsDrawn n = min n 6 := by
  unfold dotsDrawn maxDotsToShow totalDotRows MAX_DOTS_PER_ROW MAX_DOT_ROWS
  rw [outerDotLoop_eq]
  omega

lemma plusShown_iff (n : Nat) : plusShown n = true ↔ 6 < n := by
  unfold plusShown maxDotsToShow totalDotRows MAX_DOTS_PER_ROW MAX_DOT_ROWS
  simp only [decide_eq_true_eq]
  omega

/-- C3.  For every in-range day cell with `n ≥ 1` employees on vacation,
exactly `min(n, MAX_DOT_ROWS * MAX_DOTS_PER_ROW) = min(n, 6)` dots are
drawn, and the `+` overflow glyph appears iff `n > 6`. -/
theorem c3_dot_packing (dayNum : Nat) (wk hol : Bool) (vacs : List DotEntry)
    (hn : 1 ≤ vacs.length) :
    (drawDayCell dayNum wk hol true vacs).dotsCount =
      min vacs.length (MAX_DOT_ROWS * MAX_DOTS_PER_ROW) ∧
    ((drawDayCell dayNum wk hol true vacs).plus = true ↔ 6 < vacs.length) := by
  have h0 : 0 < vacs.length := hn
  constructor
  · show (if true && decide (0 < vacs.length) then dotsDrawn vacs.length else 0) = _
    rw [if_pos (by simp [h0]), dotsDrawn_eq]
    rfl
  · show (if true && decide (0 < vacs.length) then plusShown vacs.length else false)
      = true ↔ _
    rw [if_pos (by simp [h0]), plusShown_iff]

/-- A day with 8 employees on vacation (scenario input of the claim). -/
def c3exampleVacations : List DotEntry :=
  List.replicate 8 { empId := 1, color := "#3498db", name := "A" }

/-- C3 witness: 8 employees on one day yield exactly 6 dots plus the
`+` marker. -/
theorem c3_witness :
    (drawDayCell 5 false false true c3exampleVacations).dotsCount = 6 ∧
    (drawDayCell 5 false false true c3exampleVacations).plus = true := by
  obtain ⟨h1, h2⟩ := c3_dot_packing 5 false false c3exampleVacations (by decide)
  exact ⟨h1.trans (by decide), h2.mpr (by decide)⟩

/- ===== Claim C6: out-of-window cells are dimmed and bare ===== -/

/-- C6.  In the Monthly-Grid view, every day cell whose date lies
outside the requested window is drawn with the dimmed background and
muted text color, no vacation dots, no `+` overflow marker, and the
plain grid border (no holiday accent) — even if vacation or holiday
data exists for that day. -/
theorem c6_out_of_range_dimmed (year month : Int) (dayNum : Nat)
    (vacMap : List (Int × List DotEntry)) (holMap : List (Int × Holiday))
    (rangeFrom rangeTo : Int)
    (hout : ¬(rangeFrom ≤ cellDateOf year month dayNum ∧
              cellDateOf year month dayNum ≤ rangeTo)) :
    (monthGridCellFor year month dayNum vacMap holMap rangeFrom rangeTo).background
      = "#F5F5F5" ∧
    (monthGridCellFor year month dayNum vacMap holMap rangeFrom rangeTo).textColor
      = "#BBB" ∧
    (monthGridCellFor year month dayNum vacMap holMap rangeFrom rangeTo).dotsCount
      = 0 ∧
    (monthGridCellFor year month dayNum vacMap holMap rangeFrom rangeTo).plus
      = false ∧
    (monthGridCellFor year month dayNum vacMap holMap rangeFrom rangeTo).borderColor
      = GRID_COLOR := by
  unfold monthGridCellFor drawDayCell
  simp [decide_eq_false hout]

/-- June 15 2025 carries vacation data in this concrete map. -/
def c6exampleMap : List (Int × List DotEntry) :=
  [(cellDateOf 2025 5 15, [{ empId := 1, color := "#3498db", name := "Bob" }])]

/-- C6 witness: June 15 2025 lies outside the requested July 2025
window, so its cell is dimmed and bare although vacation data exists
for it. -/
theorem c6_witness :
    (monthGridCellFor 2025 5 15 c6exampleMap []
        (toDays ⟨2025, 7, 1⟩) (toDays ⟨2025, 7, 31⟩)).background = "#F5F5F5" ∧
    (monthGridCellFor 2025 5 15 c6exampleMap []
        (toDays ⟨2025, 7, 1⟩) (toDays ⟨2025, 7, 31⟩)).textColor = "#BBB" ∧
    (monthGridCellFor 2025 5 15 c6exampleMap []
        (toDays ⟨2025, 7, 1⟩) (toDays ⟨2025, 7, 31⟩)).dotsCount = 0 ∧
    (monthGridCellFor 2025 5 15 c6exampleMap []
        (toDays ⟨2025, 7, 1⟩) (toDays ⟨2025, 7, 31⟩)).plus = false ∧
    (monthGridCellFor 2025 5 15 c6exampleMap []
        (toDays ⟨2025, 7, 1⟩) (toDays ⟨2025, 7, 31⟩)).borderColor = GRID_COLOR :=
  c6_out_of_range_dimmed 2025 5 15 c6exampleMap []
    (toDays ⟨2025, 7, 1⟩) (toDays ⟨2025, 7, 31⟩) (by decide)

/- ===== Claim C7: color normalization ===== -/

/-- Modelled from the spec: a "valid 6-hex-digit RGB color" is `#`
followed by six hexadecimal digits.  Stated only to compare with what
`parseHexColor` actually returns. -/
def isValidSixHexColor (s : String) : Bool :=
  s.length = 7 && s.front = '#' &&
    (s.drop 1).toList.all (fun ch =>
      ch.isDigit || ('a' ≤ ch && ch ≤ 'f') || ('A' ≤ ch && ch ≤ 'F'))

/-- C7 counterexample.  The six-character non-hex string "zzzzzz" is
*not* replaced by the default blue: `parseHexColor` passes it through
as "#zzzzzz", which is not a valid 6-hex-digit RGB color.  (The source
checks only the length, never the characters.) -/
theorem c7_counterexample :
    parseHexColor (some "zzzzzz") = "#zzzzzz" ∧
    "#zzzzzz" ≠ DEFAULT_EMPLOYEE_COLOR ∧
    isValidSixHexColor "#zzzzzz" = false := by
  decide

/-- C7 amended.  `parseHexColor` never fails; a missing, empty, or
wrong-length color (measured after stripping one leading `#`) is
silently replaced by the default blue `#3498db`; but any 6-character
string — hexadecimal or not — is passed through unvalidated with a `#`
prefix. -/
theorem c7_color_normalization (s : String) :
    parseHexColor none = DEFAULT_EMPLOYEE_COLOR ∧
    ((stripHash s).length ≠ 6 → parseHexColor (some s) = DEFAULT_EMPLOYEE_COLOR) ∧
    (s.length ≠ 0 → (stripHash s).length = 6 →
      parseHexColor (some s) = "#" ++ stripHash s) := by
  refine ⟨rfl, ?_, ?_⟩
  · intro h6
    unfold parseHexColor
    dsimp only
    by_cases h0 : s.length = 0
    · rw [if_pos h0]
    · rw [if_neg h0, if_pos h6]
  · intro h0 h6
    unfold parseHexColor
    dsimp only
    rw [if_neg h0, if_neg (by omega)]

/-- C7 witness. -/
theorem c7_witness : parseHexColor (some "abcdef") = "#" ++ stripHash "abcdef" :=
  (c7_color_normalization "abcdef").2.2 (by decide) (by decide)

/- ===== Claim C8: timeline legend rows ===== -/

/-- Modelled from the spec: the legend row's "clipped date-range",
`start = max(vacation.start, from)`, `end = min(vacation.end, to)`,
formatted as short month + day.  Stated only to compare with what
`drawLegend` actually formats. -/
def specClippedLegendRange (f t : YMD) (v : Vacation) : String :=
  let s := if toDays v.start_date < toDays f then f else v.start_date
  let e := if toDays t < toDays v.end_date then t else v.end_date
  formatLegendDate s ++ " - " ++ formatLegendDate e

/-- Vacation Jun 5 - Jun 20 2025, extending past a Jun 1 - Jun 10 window. -/
def c8exampleVacation : Vacation :=
  { employee_id := 1
  , start_date := ⟨2025, 6, 5⟩
  , end_date := ⟨2025, 6, 20⟩
  , description := none
  , employee := none }

/-- C8 counterexample.  For a vacation running past the requested
window, the legend row displays the vacation's full span
("Jun 5 - Jun 20"), not the span clipped to the window
("Jun 5 - Jun 10"): `drawLegend` formats `v.start_date`/`v.end_date`
directly and never receives the window at all. -/
theorem c8_counterexample :
    (drawLegendRows [c8exampleVacation]).map (fun r => r.dateRange)
      = ["Jun 5 - Jun 20"] ∧
    specClippedLegendRange ⟨2025, 6, 1⟩ ⟨2025, 6, 10⟩ c8exampleVacation
      = "Jun 5 - Jun 10" ∧
    ("Jun 5 - Jun 20" : String) ≠ "Jun 5 - Jun 10" := by
  decide

/-- C8 amended.  The Timeline/flat legend draws one row per vacation,
and each row's displayed date-range is the vacation's *full* span
(start and end dates as supplied, unclipped), formatted as short month
name + day with no year. -/
theorem c8_legend_rows (vs : List Vacation) :
    (drawLegendRows vs).length = vs.length ∧
    (∀ (i : Nat) (v : Vacation), vs[i]? = some v →
      ((drawLegendRows vs)[i]?).map (fun r => r.dateRange) =
        some (formatLegendDate v.start_date ++ " - " ++
          formatLegendDate v.end_date)) := by
  constructor
  · simp [drawLegendRows]
  · intro i v h
    simp [drawLegendRows, h, legendRowOf]

/-- C8 witness. -/
theorem c8_witness :
    ((drawLegendRows [c8exampleVacation])[0]?).map (fun r => r.dateRange) =
      some (formatLegendDate c8exampleVacation.start_date ++ " - " ++
        formatLegendDate c8exampleVacation.end_date) :=
  (c8_legend_rows [c8exampleVacation]).2 0 c8exampleVacation (by decide)

/- ===== Claim C9: duplicate holidays on one day ===== -/

lemma lookup_mapSet_self {β : Type} (m : List (Int × β)) (k : Int) (v : β) :
    List.lookup k (mapSet m k v) = some v := by
  induction m with
  | nil => simp [mapSet, List.lookup]
  | cons p t ih =>
    obtain ⟨k1, v1⟩ := p
    unfold mapSet
    by_cases h : k1 = k
    · rw [if_pos h]
      simp [List.lookup]
    · rw [if_neg h]
      have hb : (k == k1) = false := beq_eq_false_iff_ne.mpr (fun he => h he.symm)
      simp only [List.lookup, hb]
      exact ih

lemma lookup_mapSet_ne {β : Type} (m : List (Int × β)) (k k2 : Int) (v : β)
    (h : k2 ≠ k) :
    List.lookup k2 (mapSet m k v) = List.lookup k2 m := by
  induction m with
  | nil =>
    have hb : (k2 == k) = false := beq_eq_false_iff_ne.mpr h
    simp [mapSet, List.lookup, hb]
  | cons p t ih =>
    obtain ⟨k1, v1⟩ := p
    unfold mapSet
    by_cases h1 : k1 = k
    · rw [if_pos h1]
      subst h1
      have hb : (k2 == k1) = false := beq_eq_false_iff_ne.mpr h
      simp [List.lookup, hb]
    · rw [if_neg h1]
      by_cases h2 : k2 = k1
      · subst h2
        simp [List.lookup]
      · have hb : (k2 == k1) = false := beq_eq_false_iff_ne.mpr h2
        simp only [List.lookup, hb]
        exact ih

lemma lookup_buildHolidayMap (hs : List Holiday) (d : Int) :
    List.lookup d (buildHolidayMap hs) = lastWithDate hs d := by
  unfold buildHolidayMap lastWithDate
  have aux : ∀ (ws : List Holiday) (m : List (Int × Holiday)) (acc : Option Holiday),
      List.lookup d m = acc →
      List.lookup d (ws.foldl (fun m2 h => mapSet m2 h.date h) m) =
        ws.foldl (fun acc2 h => if h.date = d then some h else acc2) acc := by
    intro ws
    induction ws with
    | nil => intro m acc h; simpa using h
    | cons hh t ih =>
      intro m acc h
      simp only [List.foldl_cons]
      apply ih
      by_cases hd : hh.date = d
      · rw [if_pos hd, ← hd, lookup_mapSet_self]
      · rw [if_neg hd, ← h]
        exact lookup_mapSet_ne m hh.date d hh (fun he => hd he.symm)
  exact aux hs [] none rfl

lemma lastWithDate_isSome (hs : List Holiday) (d : Int) :
    (lastWithDate hs d).isSome = true ↔ ∃ h2 ∈ hs, h2.date = d := by
  unfold lastWithDate
  have aux : ∀ (ws : List Holiday) (acc : Option Holiday),
      (ws.foldl (fun acc2 h => if h.date = d then some h else acc2) acc).isSome = true ↔
        acc.isSome = true ∨ ∃ h2 ∈ ws, h2.date = d := by
    intro ws
    induction ws with
    | nil => intro acc; simp
    | cons hh t ih =>
      intro acc
      simp only [List.foldl_cons]
      rw [ih]
      by_cases hd : hh.date = d
      · simp [hd]
      · simp [hd]
  simpa using aux hs none

lemma hasKey_buildHolidayMap (hs : List Holiday) (d : Int) :
    hasKey d (buildHolidayMap hs) = true ↔ ∃ h2 ∈ hs, h2.date = d := by
  unfold hasKey
  rw [lookup_buildHolidayMap]
  exact lastWithDate_isSome hs d

/-- Two holidays supplied for the same day. -/
def c9exampleFirst : Holiday := { date := 100, name := "First Holiday" }

def c9exampleSecond : Holiday := { date := 100, name := "Second Holiday" }

/-- C9 counterexample.  With two holidays on the same date, the per-day
lookup built by `buildHolidayMap` yields the *second* (last) list
entry, not the first: `map.set` overwrites the previous entry. -/
theorem c9_counterexample :
    List.lookup 100 (buildHolidayMap [c9exampleFirst, c9exampleSecond])
      = some c9exampleSecond ∧
    List.find? (fun h2 => h2.date == 100) [c9exampleFirst, c9exampleSecond]
      = some c9exampleFirst ∧
    some c9exampleSecond ≠ some c9exampleFirst := by
  decide

/-- C9 amended.  When several holidays share a date, the per-day lookup
stores the *last* list entry for that date (each `map.set` replaces the
previous one).  Day shading and cell marking, however, only test
membership of the day key, which holds iff some supplied holiday has
that date — so duplicates indeed do not change which days are shaded. -/
theorem c9_duplicate_holidays (hs : List Holiday) (d fromD days : Int) (i : Nat) :
    List.lookup d (buildHolidayMap hs) = lastWithDate hs d ∧
    (hasKey d (buildHolidayMap hs) = true ↔ ∃ h2 ∈ hs, h2.date = d) ∧
    (i ∈ holidayShadedDays fromD days (buildHolidayMap hs) ↔
      i ∈ List.range days.toNat ∧ ∃ h2 ∈ hs, h2.date = fromD + (i : Int)) := by
  refine ⟨lookup_buildHolidayMap hs d, hasKey_buildHolidayMap hs d, ?_⟩
  unfold holidayShadedDays
  by_cases hm : (buildHolidayMap hs).length = 0
  · have hmap : buildHolidayMap hs = [] := List.length_eq_zero.mp hm
    rw [if_pos hm]
    simp only [List.not_mem_nil, false_iff]
    rintro ⟨-, hex⟩
    have := (hasKey_buildHolidayMap hs (fromD + (i : Int))).mpr hex
    rw [hmap] at this
    simp [hasKey, List.lookup] at this
  · rw [if_neg hm]
    rw [List.mem_filter]
    rw [hasKey_buildHolidayMap hs (fromD + (i : Int))]

/- ===== Claim C10: vacation day expansion ===== -/

lemma vacationDays_count_aux :
    ∀ (n : Nat) (s e : Int), (e + 1 - s).toNat ≤ n → ∀ d : Int,
      (vacationDays s e).count d = if s ≤ d ∧ d ≤ e then 1 else 0 := by
  intro n
  induction n with
  | zero =>
    intro s e hle d
    unfold vacationDays
    rw [if_neg (by omega)]
    have hd : ¬(s ≤ d ∧ d ≤ e) := by omega
    simp [hd]
  | succ n ih =>
    intro s e hle d
    unfold vacationDays
    by_cases hse : s ≤ e
    · rw [if_pos hse, List.count_cons, ih (s + 1) e (by omega) d]
      simp only [beq_iff_eq]
      split_ifs <;> omega
    · rw [if_neg hse]
      have hd : ¬(s ≤ d ∧ d ≤ e) := by omega
      simp [hd]

lemma vacationDays_count (s e d : Int) :
    (vacationDays s e).count d = if s ≤ d ∧ d ≤ e then 1 else 0 :=
  vacationDays_count_aux (e + 1 - s).toNat s e le_rfl d

lemma vacationDays_length_aux :
    ∀ (n : Nat) (s e : Int), (e + 1 - s).toNat ≤ n →
      (vacationDays s e).length = (e + 1 - s).toNat := by
  intro n
  induction n with
  | zero =>
    intro s e hle
    unfold vacationDays
    rw [if_neg (by omega)]
    simp
    omega
  | succ n ih =>
    intro s e hle
    unfold vacationDays
    by_cases hse : s ≤ e
    · rw [if_pos hse]
      simp only [List.length_cons, ih (s + 1) e (by omega)]
      omega
    · rw [if_neg hse]
      simp
      omega

lemma vacationDays_length (s e : Int) :
    (vacationDays s e).length = (e + 1 - s).toNat :=
  vacationDays_length_aux (e + 1 - s).toNat s e le_rfl

lemma lookup_mapAppend_self {β : Type} (m : List (Int × List β)) (k : Int) (x : β) :
    List.lookup k (mapAppend m k x) = some (lookupL k m ++ [x]) := by
  induction m with
  | nil => simp [mapAppend, List.lookup, lookupL]
  | cons p t ih =>
    obtain ⟨k1, v1⟩ := p
    unfold mapAppend
    by_cases h : k1 = k
    · rw [if_pos h]
      subst h
      simp [List.lookup, lookupL]
    · rw [if_neg h]
      have hb : (k == k1) = false := beq_eq_false_iff_ne.mpr (fun he => h he.symm)
      simp only [List.lookup, hb, lookupL]
      exact ih

lemma lookup_mapAppend_ne {β : Type} (m : List (Int × List β)) (k k2 : Int) (x : β)
    (h : k2 ≠ k) :
    List.lookup k2 (mapAppend m k x) = List.lookup k2 m := by
  induction m with
  | nil =>
    have hb : (k2 == k) = false := beq_eq_false_iff_ne.mpr h
    simp [mapAppend, List.lookup, hb]
  | cons p t ih =>
    obtain ⟨k1, v1⟩ := p
    unfold mapAppend
    by_cases h1 : k1 = k
    · rw [if_pos h1]
      subst h1
      have hb : (k2 == k1) = false := beq_eq_false_iff_ne.mpr h
      simp [List.lookup, hb]
    · rw [if_neg h1]
      by_cases h2 : k2 = k1
      · subst h2
        simp [List.lookup]
      · have hb : (k2 == k1) = false := beq_eq_false_iff_ne.mpr h2
        simp only [List.lookup, hb]
        exact ih

lemma lookupL_mapAppend_self {β : Type} (m : List (Int × List β)) (k : Int) (x : β) :
    lookupL k (mapAppend m k x) = lookupL k m ++ [x] := by
  unfold lookupL
  rw [lookup_mapAppend_self]
  rfl

lemma lookupL_mapAppend_ne {β : Type} (m : List (Int × List β)) (k k2 : Int) (x : β)
    (h : k2 ≠ k) :
    lookupL k2 (mapAppend m k x) = lookupL k2 m := by
  unfold lookupL
  rw [lookup_mapAppend_ne m k k2 x h]

lemma lookupL_foldl_mapAppend {β : Type} (ds : List Int) (m : List (Int × List β))
    (k : Int) (x : β) :
    lookupL k (ds.foldl (fun m2 d => mapAppend m2 d x) m) =
      lookupL k m ++ List.replicate (ds.count k) x := by
  induction ds generalizing m with
  | nil => simp
  | cons d t ih =>
    simp only [List.foldl_cons, ih, List.count_cons]
    by_cases h : d = k
    · subst h
      rw [lookupL_mapAppend_self]
      simp [List.replicate_succ, List.append_assoc]
    · rw [lookupL_mapAppend_ne m d k x (fun he => h he.symm)]
      have hb : (k == d) = false := beq_eq_false_iff_ne.mpr (fun he => h he.symm)
      simp [hb, h]

lemma lookupL_addVacation (m : List (Int × List DotEntry)) (v : Vacation) (d : Int) :
    lookupL d (addVacation m v) =
      lookupL d m ++
        (if toDays v.start_date ≤ d ∧ d ≤ toDays v.end_date
          then [entryOf v] else []) := by
  unfold addVacation
  rw [lookupL_foldl_mapAppend, vacationDays_count]
  split_ifs <;> simp

/-- C10.  The day-expansion loop of `buildVacationDayMap` terminates
(its output has exactly `max(end - start + 1, 0)` days), and the
per-day lookup holds, for every day `d`, exactly the entries of those
vacations whose inclusive `start_date .. end_date` span contains `d`,
one entry each, in input order; a vacation with `start_date > end_date`
contributes no entry at all. -/
theorem c10_day_expansion (vs : List Vacation) (d : Int) :
    lookupL d (buildVacationDayMap vs) =
      (vs.filter (fun v =>
        decide (toDays v.start_date ≤ d ∧ d ≤ toDays v.end_date))).map entryOf ∧
    (∀ s e : Int, (vacationDays s e).length = (e + 1 - s).toNat) := by
  constructor
  · unfold buildVacationDayMap
    have aux : ∀ (ws : List Vacation) (m : List (Int × List DotEntry)),
        lookupL d (ws.foldl addVacation m) =
          lookupL d m ++ (ws.filter (fun v =>
            decide (toDays v.start_date ≤ d ∧ d ≤ toDays v.end_date))).map entryOf := by
      intro ws
      induction ws with
      | nil => intro m; simp
      | cons v t ih =>
        intro m
        simp only [List.foldl_cons, ih, lookupL_addVacation, List.filter_cons]
        by_cases h : toDays v.start_date ≤ d ∧ d ≤ toDays v.end_date
        · simp [h, List.append_assoc]
        · simp [h]
    simpa [lookupL, List.lookup] using aux vs []
  · intro s e
    exact vacationDays_length s e

/- ===== Claim C2: vacation bar clipping ===== -/

/-- Closed form of `drawVacationBar` on day-granular dates: the emitted
bar always starts at day offset `max s f - f` and spans
`min e t - max s f + 1` day widths (which is non-positive when the
vacation lies outside the window). -/
lemma drawVacationBar_eq (s e f t y : Int) (c : String) :
    drawVacationBar (s * msPerDay) (e * msPerDay) (f * msPerDay) (t * msPerDay) y c =
      { x := LEFT_MARGIN + (max s f - f) * DAY_WIDTH
      , w := (min e t - max s f + 1) * DAY_WIDTH
      , barY := y + 5
      , color := c } := by
  unfold drawVacationBar
  have hms : (0 : Int) < msPerDay := msPerDay_pos
  have h1 : (if s * msPerDay < f * msPerDay then f * msPerDay else s * msPerDay) =
      max s f * msPerDay := by
    rcases le_or_lt f s with h | h
    · rw [if_neg (not_lt.mpr (mul_le_mul_of_nonneg_right h hms.le)), max_eq_left h]
    · rw [if_pos ((mul_lt_mul_right hms).mpr h), max_eq_right h.le]
  have h2 : (if e * msPerDay > t * msPerDay then t * msPerDay else e * msPerDay) =
      min e t * msPerDay := by
    rcases le_or_lt e t with h | h
    · rw [if_neg (not_lt.mpr (mul_le_mul_of_nonneg_right h hms.le)), min_eq_left h]
    · rw [if_pos ((mul_lt_mul_right hms).mpr h), min_eq_right h.le]
  dsimp only
  rw [h1, h2, ← sub_mul, ← sub_mul,
    Int.mul_fdiv_cancel _ (by norm_num [msPerDay]),
    Int.mul_fdiv_cancel _ (by norm_num [msPerDay])]
  congr 1
  ring

/-- C2 counterexample.  A vacation (Jun 20-22 2025) lying entirely
after the requested window (Jun 1-10 2025) is *not* skipped: the
renderer still issues its rounded-rect fill — here a degenerate bar of
width `-270` at x = 720, inside the 800-pixel-wide canvas. -/
theorem c2_counterexample :
    toDays (⟨2025, 6, 10⟩ : YMD) < toDays (⟨2025, 6, 20⟩ : YMD) ∧
    drawEmployeeRowsBars
        [{ id := 1, name := "Alice", color := some "FF0000" }]
        [{ employee_id := 1
         , start_date := ⟨2025, 6, 20⟩
         , end_date := ⟨2025, 6, 22⟩
         , description := none
         , employee := some { id := 1, name := "Alice", color := some "FF0000" } }]
        (toDays ⟨2025, 6, 1⟩) (toDays ⟨2025, 6, 10⟩) =
      [{ x := 720, w := -270, barY := 115, color := "#FF0000" }] := by
  decide

/-- C2 amended.  For a vacation overlapping the window, the bar spans
exactly the clipped range: x = `LEFT_MARGIN + startDay * DAY_WIDTH`
with `startDay = max(start, from) - from`, and positive width
proportional to the clipped inclusive day count
`min(end, to) - max(start, from) + 1`.  A vacation entirely outside the
window is not skipped, however: its fill is still issued, with
non-positive computed width. -/
theorem c2_bar_clipping (s e f t y : Int) (c : String)
    (hse : s ≤ e) (hft : f ≤ t) :
    ((s ≤ t ∧ f ≤ e) →
      (drawVacationBar (s * msPerDay) (e * msPerDay) (f * msPerDay)
          (t * msPerDay) y c).x = LEFT_MARGIN + (max s f - f) * DAY_WIDTH ∧
      (drawVacationBar (s * msPerDay) (e * msPerDay) (f * msPerDay)
          (t * msPerDay) y c).w = (min e t - max s f + 1) * DAY_WIDTH ∧
      0 < (drawVacationBar (s * msPerDay) (e * msPerDay) (f * msPerDay)
          (t * msPerDay) y c).w) ∧
    ((t < s ∨ e < f) →
      (drawVacationBar (s * msPerDay) (e * msPerDay) (f * msPerDay)
          (t * msPerDay) y c).w ≤ 0) := by
  rw [drawVacationBar_eq]
  unfold DAY_WIDTH
  dsimp only
  constructor
  · rintro ⟨h1, h2⟩
    refine ⟨rfl, rfl, ?_⟩
    omega
  · rintro (h | h) <;> omega

/-- C2 witness: a vacation spanning days 4-6 inside a 10-day window
gets a bar of positive width over exactly the clipped span. -/
theorem c2_witness :
    (drawVacationBar (4 * msPerDay) (6 * msPerDay) (0 * msPerDay)
        (9 * msPerDay) 110 "#FF0000").x = LEFT_MARGIN + (max 4 0 - 0) * DAY_WIDTH ∧
    (drawVacationBar (4 * msPerDay) (6 * msPerDay) (0 * msPerDay)
        (9 * msPerDay) 110 "#FF0000").w = (min 6 9 - max 4 0 + 1) * DAY_WIDTH ∧
    0 < (drawVacationBar (4 * msPerDay) (6 * msPerDay) (0 * msPerDay)
        (9 * msPerDay) 110 "#FF0000").w :=
  (c2_bar_clipping 4 6 0 9 110 "#FF0000" (by decide) (by decide)).1
    ⟨by decide, by decide⟩
